import Mathlib

/-!
# Verification of `video_utils.py`

A shallow embedding of the frame-extraction utilities of the repository.
External effects (the decoder process, its stdout/stderr, the random
number generator of the numerics library) are passed to each function as
explicit parameters; byte strings are `List Nat`, decoded text is
`List Char`, Python `float` values are modelled as exact rationals `ℚ`,
and a Python exception is an `Except.error` carrying the exception text.
-/

namespace VideoUtils

/-- A byte string (each entry one byte). -/
abbrev Bytes := List Nat

/-- A numpy `ndarray` of dtype uint8: a shape together with the flat data. -/
structure NDArray where
  shape : List Nat
  data : List Nat
deriving Repr, DecidableEq

/-- `np.frombuffer(out, np.uint8)`: a one-dimensional array over the bytes. -/
def frombuffer (b : Bytes) : NDArray :=
  { shape := [b.length], data := b }

/-- `ndarray.reshape(s)` for a fully given shape: succeeds exactly when the
element count matches, otherwise raises `ValueError` as numpy does. -/
def reshape (a : NDArray) (s : List Nat) : Except String NDArray :=
  if a.data.length = s.prod then .ok { shape := s, data := a.data }
  else .error "ValueError: cannot reshape array"

/-- `ndarray.reshape((-1, s...))`: the first dimension is inferred; numpy
raises `ValueError` when the known dimensions do not divide the size
(or are zero, making the inference ambiguous). -/
def reshapeInferFirst (a : NDArray) (s : List Nat) : Except String NDArray :=
  if s.prod ≠ 0 ∧ s.prod ∣ a.data.length then
    .ok { shape := a.data.length / s.prod :: s, data := a.data }
  else .error "ValueError: cannot reshape array"

/-- Value of a string of decimal digits. -/
def digitsToNat (s : List Char) : Nat :=
  s.foldl (fun n c => n * 10 + (c.toNat - '0'.toNat)) 0

/-- The whitespace `float()` strips from both ends of its argument. -/
def isFloatSpace (c : Char) : Bool :=
  c = ' ' || c = '\t' || c = '\n' || c = '\r' || c = '\x0b' || c = '\x0c'

/-- Python `float()` on the strings produced by the regular expressions of
the source: after stripping surrounding whitespace (`float("0 ") = 0.0`),
digits with at most one dot and at least one digit
(`"12"`, `"1.5"`, `".5"`, `"5."`); anything else — including internal
whitespace, as in `"1 5"` — raises `ValueError` (`none` here). The value
is exact (rational) rather than rounded. -/
def parseFloat? (s : List Char) : Option ℚ :=
  let t := ((s.dropWhile isFloatSpace).reverse.dropWhile isFloatSpace).reverse
  let ip := t.takeWhile Char.isDigit
  match t.drop ip.length with
  | [] => if ip.isEmpty then none else some ((digitsToNat ip : ℚ))
  | '.' :: fp =>
    if fp.all Char.isDigit ∧ (ip ≠ [] ∨ fp ≠ []) then
      some ((digitsToNat ip : ℚ) + (digitsToNat fp : ℚ) / 10 ^ fp.length)
    else none
  | _ => none

/-- Python `int()` on a `\d*` capture group: raises `ValueError` on the
empty string, otherwise the number the digits denote. -/
def parseIntD (s : List Char) : Option Nat :=
  if s.isEmpty then none else some (digitsToNat s)

/-! ## The regular expressions of the source

`video_utils.py` uses three patterns:
`pts_time:([\d.]+) ` (on bytes, in `set_pts_list` / `iter_all_frames`),
`pts_time:\d*.\d*` (on text, in `get_all_frames_ffmpeg` / `get_pts_list`),
and `Video:.*, (\d*)x(\d*),` (in `get_frame`). Each is implemented with
Python `re` semantics: leftmost match, greedy subpatterns with
backtracking, `.` not matching a newline, and `finditer` resuming after
the end of the previous match. -/

/-- Match `pts_time:([\d.]+) ` at the start of `cs`; on success return the
capture group and the remainder of the input after the match. -/
def matchPtsBytesAt (cs : List Char) : Option (List Char × List Char) :=
  if cs.take 9 = "pts_time:".toList then
    let rest := cs.drop 9
    let g := rest.takeWhile (fun c => c.isDigit || c == '.')
    if g.isEmpty then none
    else
      match rest.drop g.length with
      | ' ' :: tail => some (g, tail)
      | _ => none
  else none

/-- `re.finditer` for `pts_time:([\d.]+) `, fuelled by the input length
(every match consumes at least one character, so the fuel suffices). -/
def ptsGroupsBytesAux : Nat → List Char → List (List Char)
  | 0, _ => []
  | _ + 1, [] => []
  | fuel + 1, c :: cs =>
    match matchPtsBytesAt (c :: cs) with
    | some (g, rest) => g :: ptsGroupsBytesAux fuel rest
    | none => ptsGroupsBytesAux fuel cs

/-- The capture groups of all matches of `pts_time:([\d.]+) ` in `cs`. -/
def ptsGroupsBytes (cs : List Char) : List (List Char) :=
  ptsGroupsBytesAux cs.length cs

/-- Match `pts_time:\d*.\d*` at the start of `cs`; on success return the
matched text with the `pts_time:` literal stripped (what the source
computes as `entry.group()[len("pts_time:"):]`) and the remainder after
the match. The first `\d*` is greedy; if no character is available for
the `.` (end of input or a newline) the engine backtracks and the last
digit of the first run serves as the `.`. -/
def matchPtsTextAt (cs : List Char) : Option (List Char × List Char) :=
  if cs.take 9 = "pts_time:".toList then
    let rest := cs.drop 9
    let d1 := rest.takeWhile Char.isDigit
    match rest.drop d1.length with
    | [] => if d1.isEmpty then none else some (d1, [])
    | c :: tail =>
      if c = '\n' then
        if d1.isEmpty then none else some (d1, c :: tail)
      else
        let d2 := tail.takeWhile Char.isDigit
        some (d1 ++ c :: d2, tail.drop d2.length)
  else none

/-- `re.finditer` for `pts_time:\d*.\d*`, fuelled by the input length. -/
def ptsTextAux : Nat → List Char → List (List Char)
  | 0, _ => []
  | _ + 1, [] => []
  | fuel + 1, c :: cs =>
    match matchPtsTextAt (c :: cs) with
    | some (g, rest) => g :: ptsTextAux fuel rest
    | none => ptsTextAux fuel cs

/-- The post-`pts_time:` texts of all matches of `pts_time:\d*.\d*`. -/
def ptsTextMatches (cs : List Char) : List (List Char) :=
  ptsTextAux cs.length cs

/-- Match `, (\d*)x(\d*),` at the start of `cs`, returning the two digit
groups (width text, height text). -/
def matchSizeTailAt (cs : List Char) : Option (List Char × List Char) :=
  match cs with
  | ',' :: ' ' :: rest =>
    let d1 := rest.takeWhile Char.isDigit
    match rest.drop d1.length with
    | 'x' :: rest2 =>
      let d2 := rest2.takeWhile Char.isDigit
      (match rest2.drop d2.length with
       | ',' :: _ => some (d1, d2)
       | _ => none)
    | _ => none
  | _ => none

/-- Greedy `.*` before `, (\d*)x(\d*),`: try the longest prefix of the
current line first (`.` does not cross a newline) and backtrack towards
the empty prefix. `j` is the number of characters `.*` consumes. -/
def trySplits (cs : List Char) : Nat → Option (List Char × List Char)
  | 0 => matchSizeTailAt cs
  | j + 1 =>
    match matchSizeTailAt (cs.drop (j + 1)) with
    | some r => some r
    | none => trySplits cs j

/-- `re.search(r"Video:.*, (\d*)x(\d*),", err)`: the leftmost occurrence of
the literal `Video:` from which the rest of the pattern matches wins. -/
def searchVideoSize : List Char → Option (List Char × List Char)
  | [] => none
  | c :: cs =>
    if (c :: cs).take 6 = "Video:".toList then
      let rest := (c :: cs).drop 6
      match trySplits rest ((rest.takeWhile (fun ch => ch ≠ '\n')).length) with
      | some r => some r
      | none => searchVideoSize cs
    else searchVideoSize cs

/-! ## Module-level functions -/

/-- `get_frame(file, time, height, width)`. The decoder run's stdout is
`out`; its stderr (captured only when `height is None or width is None`)
is `err`. When both dimensions are supplied they are used unchanged and
`err` is never consulted; otherwise both are parsed from the first
`Video: ..., WxH,` match (width first, as in the source), an absent match
raising `AttributeError` (`.groups()` on `None`) and an empty digit group
raising `ValueError` (from `int`). -/
def get_frame (out : Bytes) (err : List Char) (height width : Option Nat) :
    Except String NDArray :=
  if height.isNone || width.isNone then
    match searchVideoSize err with
    | none => .error "AttributeError: NoneType object has no attribute groups"
    | some (g1, g2) =>
      match parseIntD g1, parseIntD g2 with
      | some w, some h => reshape (frombuffer out) [h, w, 3]
      | _, _ => .error "ValueError: invalid literal for int with base 10"
  else
    reshape (frombuffer out) [height.getD 0, width.getD 0, 3]

/-- One stream record of `ffmpeg.probe(file)["streams"]`, restricted to the
keys the source reads. `duration` is stored as the already-parsed value;
`tags` is `none` when the JSON has no `tags` key. -/
structure MediaStream where
  codec_type : String
  width : Nat
  height : Nat
  duration : ℚ
  tags : Option (List (String × String))
deriving Repr, DecidableEq

/-- `next((s for s in probe["streams"] if s["codec_type"] == "video"), None)`. -/
def findVideoStream (streams : List MediaStream) : Option MediaStream :=
  streams.find? (fun s => s.codec_type == "video")

/-- `tags["rotate"]` when `"tags" in video_stream and "rotate" in tags`. -/
def MediaStream.rotate? (s : MediaStream) : Option String :=
  match s.tags with
  | none => none
  | some t => t.lookup "rotate"

/-- `get_all_frames_ffmpeg(file, vsync)`. `streams` is the probe result,
`out` the decoder's stdout, `err` its decoded stderr. Subscripting a
`None` stream raises `TypeError`; a malformed `pts_time` text raises
`ValueError` from `float`; the frame array is
`np.frombuffer(out, np.uint8).reshape((-1, height, width, 3))`. -/
def get_all_frames_ffmpeg (streams : List MediaStream) (out : Bytes)
    (err : List Char) : Except String (List ℚ × NDArray) :=
  match findVideoStream streams with
  | none => .error "TypeError: NoneType object is not subscriptable"
  | some vs =>
    match (ptsTextMatches err).mapM parseFloat? with
    | none => .error "ValueError: could not convert string to float"
    | some present_time =>
      match reshapeInferFirst (frombuffer out) [vs.height, vs.width, 3] with
      | .ok a => .ok (present_time, a)
      | .error e => .error e

/-- The read loop shared by `iter_all_frames_ffmpeg` and
`CatVideo.iter_all_frames`: `process.stdout.read(width*height*3)` until a
read returns no bytes, reshaping every chunk to `(height, width, 3)`.
The stream is modelled as the full byte sequence the process writes, a
read returning the next `min(n, remaining)` bytes. Fuelled by the stream
length (each iteration consumes at least one byte; `read(0)` returns no
bytes, ending the loop at once). -/
def readFramesAux (height width : Nat) : Nat → Bytes → Except String (List NDArray)
  | _, [] => .ok []
  | 0, _ => .ok []
  | fuel + 1, b :: bs =>
    if width * height * 3 = 0 then .ok []
    else
      match reshape (frombuffer ((b :: bs).take (width * height * 3))) [height, width, 3] with
      | .ok a =>
        (match readFramesAux height width fuel ((b :: bs).drop (width * height * 3)) with
         | .ok frames => .ok (a :: frames)
         | .error e => .error e)
      | .error e => .error e

/-- `iter_all_frames_ffmpeg(file, vsync)` run to exhaustion: the probe gives
the dimensions, then the read loop yields the frames in stream order. -/
def iter_all_frames_ffmpeg (streams : List MediaStream) (stream : Bytes) :
    Except String (List NDArray) :=
  match findVideoStream streams with
  | none => .error "TypeError: NoneType object is not subscriptable"
  | some vs => readFramesAux vs.height vs.width stream.length stream

/-! ## The `CatVideo` class -/

/-- The fields `__init__` assigns. -/
structure CatVideo where
  file : String
  width : Nat
  height : Nat
  duration : ℚ
  vsync : Int
  loglevel : String
  pts_list : Option (List ℚ)
deriving Repr, DecidableEq

/-- `CatVideo.__init__(file, vsync, loglevel)` over the probe result:
no video stream raises `ValueError`; width and height are swapped exactly
when the stream carries a rotate tag of `"90"` or `"270"`; `pts_list`
starts as `None`. -/
def CatVideo.init (file : String) (streams : List MediaStream) (vsync : Int)
    (loglevel : String) : Except String CatVideo :=
  match findVideoStream streams with
  | none => .error "ValueError: No video stream found"
  | some vs =>
    let w := vs.width
    let h := vs.height
    let wh :=
      match vs.rotate? with
      | some r => if r = "90" ∨ r = "270" then (h, w) else (w, h)
      | none => (w, h)
    .ok { file := file, width := wh.1, height := wh.2, duration := vs.duration,
          vsync := vsync, loglevel := loglevel, pts_list := none }

/-- `CatVideo.set_pts_list`: run the decoder with `showinfo` to the null
muxer, collect `pts_time:([\d.]+) ` capture groups from its stderr `err`,
parse each with `float`, and store the list on the object. -/
def CatVideo.set_pts_list (v : CatVideo) (err : List Char) :
    Except String CatVideo :=
  match (ptsGroupsBytes err).mapM parseFloat? with
  | some l => .ok { v with pts_list := some l }
  | none => .error "ValueError: could not convert string to float"

/-- `CatVideo.get_frame_time(frame_time)` over the stdout `out` of the
decoder run at that timestamp: an empty byte string raises `ValueError`,
otherwise the bytes are reshaped to `(height, width, 3)` (numpy raising
`ValueError` when the length does not match). -/
def CatVideo.get_frame_time (v : CatVideo) (out : Bytes) : Except String NDArray :=
  let raw := frombuffer out
  if raw.data.length = 0 then
    .error "ValueError: No frames found (video must have at least one frame with presentation time stamp >= frame_time)"
  else reshape raw [v.height, v.width, 3]

/-- `CatVideo.get_frame_num(frame)`: fill `pts_list` via `set_pts_list`
when it is still `None` (`errPts` is the stderr of that run), then fetch by
the timestamp stored at index `frame`. `timeOut t` is the stdout of the
decoder run seeking to timestamp `t`. Returns the object state after the
call together with the frame. -/
def CatVideo.get_frame_num (v : CatVideo) (errPts : List Char)
    (timeOut : ℚ → Bytes) (frame : Nat) : Except String (CatVideo × NDArray) :=
  match (if v.pts_list.isNone then v.set_pts_list errPts else .ok v) with
  | .error e => .error e
  | .ok v1 =>
    match v1.pts_list with
    | none => .error "TypeError: NoneType object is not subscriptable"
    | some l =>
      match l.get? frame with
      | none => .error "IndexError: list index out of range"
      | some frame_time =>
        match v1.get_frame_time (timeOut frame_time) with
        | .ok a => .ok (v1, a)
        | .error e => .error e

/-- `CatVideo.iter_all_frames()` run to exhaustion: yield the frames of the
byte stream, then (only when `pts_list` was `None`, in which case stderr
was piped and `process.communicate()` returned it as `err`) look for
`pts_time` entries; when at least one is found the source evaluates
`[float(match.group(1)) for match in match_list]` where the name
`match_list` is undefined, so a `NameError` is raised; with no entries
`pts_list` is left unchanged. Returns the yielded frames and the object
state after the generator finishes. -/
def CatVideo.iter_all_frames (v : CatVideo) (stream : Bytes) (err : List Char) :
    Except String (List NDArray × CatVideo) :=
  match readFramesAux v.height v.width stream.length stream with
  | .error e => .error e
  | .ok frames =>
    if v.pts_list.isNone then
      if (ptsGroupsBytes err).length > 0 then
        .error "NameError: name match_list is not defined"
      else .ok (frames, v)
    else .ok (frames, v)

/-- The retry loop of `CatVideo.get_random_frame`: draw
`np.random.random() * duration`, try `get_frame_time`, and retry on
`ValueError`. The generator is a state `g : S` with `val g` the next draw
and `step g` the advanced state; `timeOut t` is the decoder stdout at
timestamp `t`. Fuelled; `none` models non-termination. -/
def CatVideo.get_random_frame_loop {S : Type} (v : CatVideo) (step : S → S)
    (val : S → ℚ) (timeOut : ℚ → Bytes) : Nat → S → Option ((ℚ × NDArray) × S)
  | 0, _ => none
  | fuel + 1, g =>
    let frame_time := val g * v.duration
    match v.get_frame_time (timeOut frame_time) with
    | .ok frame => some ((frame_time, frame), step g)
    | .error _ => CatVideo.get_random_frame_loop v step val timeOut fuel (step g)

/-- `CatVideo.get_random_frame(seed)`: when `seed` is not `None`,
`np.random.seed(seed)` resets the global generator to a state that is a
function of the seed alone (`seedFn`), discarding the prior state `g0`;
then the retry loop runs. -/
def CatVideo.get_random_frame {S : Type} (v : CatVideo) (seedFn : Nat → S)
    (step : S → S) (val : S → ℚ) (timeOut : ℚ → Bytes) (seed : Option Nat)
    (g0 : S) (fuel : Nat) : Option ((ℚ × NDArray) × S) :=
  let g := match seed with | some s => seedFn s | none => g0
  CatVideo.get_random_frame_loop v step val timeOut fuel g

/-! ## Concrete inputs used by witnesses and counterexamples -/

/-- A 1x1 video object whose timestamp list is already filled. -/
def vFilled : CatVideo :=
  { file := "cat.mp4", width := 1, height := 1, duration := 3, vsync := 0,
    loglevel := "error", pts_list := some [2] }

/-- A decoder that answers every timestamp request with one 1x1 RGB frame. -/
def oneFrame : ℚ → Bytes := fun _ => [10, 20, 30]

/-- A 1x1 video object whose timestamp list is still `None`. -/
def vEmptyPts : CatVideo :=
  { file := "cat.mp4", width := 1, height := 1, duration := 1, vsync := 0,
    loglevel := "error", pts_list := none }

/-- A showinfo stderr carrying a single `pts_time:5 ` entry. -/
def errOnePts : List Char := "showinfo pts_time:5 x".toList

/-- `vEmptyPts` after `set_pts_list` against `errOnePts`. -/
def vFilled5 : CatVideo :=
  { file := "cat.mp4", width := 1, height := 1, duration := 1, vsync := 0,
    loglevel := "error", pts_list := some [((5 : Nat) : ℚ)] }

/-- A probe result with a single 1x1 video stream of duration 2. -/
def probeTiny : List MediaStream :=
  [{ codec_type := "video", width := 1, height := 1, duration := 2, tags := none }]

/-- A probe result with a rotated 2x1 video stream. -/
def probeRot : List MediaStream :=
  [{ codec_type := "audio", width := 0, height := 0, duration := 2, tags := none },
   { codec_type := "video", width := 2, height := 1, duration := 7,
     tags := some [("rotate", "90")] }]

/-- The video stream of `probeTiny`. -/
def vsTiny : MediaStream :=
  { codec_type := "video", width := 1, height := 1, duration := 2, tags := none }

end VideoUtils

namespace VideoUtils

/-! ## Helper lemmas -/

/-- `set_pts_list` only writes `pts_list`. -/
theorem set_pts_list_fields (v : CatVideo) (err : List Char) (v1 : CatVideo)
    (h : v.set_pts_list err = .ok v1) :
    v1.file = v.file ∧ v1.width = v.width ∧ v1.height = v.height ∧
    v1.duration = v.duration ∧ v1.vsync = v.vsync ∧ v1.loglevel = v.loglevel := by
  unfold CatVideo.set_pts_list at h
  split at h
  · cases h
    exact ⟨rfl, rfl, rfl, rfl, rfl, rfl⟩
  · cases h

/-- The object a successful `get_frame_num` returns is either the receiver
itself or the receiver after `set_pts_list`. -/
theorem get_frame_num_ok_state (v : CatVideo) (err : List Char)
    (timeOut : ℚ → Bytes) (i : Nat) (v1 : CatVideo) (a : NDArray)
    (h : v.get_frame_num err timeOut i = .ok (v1, a)) :
    v1 = v ∨ v.set_pts_list err = .ok v1 := by
  unfold CatVideo.get_frame_num at h
  split at h
  · cases h
  next v2 heq =>
    split at h
    · cases h
    next l hl =>
      split at h
      · cases h
      next ft hft =>
        split at h
        next a' ha =>
          cases h
          by_cases hp : v.pts_list.isNone
          · right
            rw [if_pos hp] at heq
            exact heq
          · left
            rw [if_neg hp] at heq
            cases heq
            rfl
        · cases h

/-- Every successful run of the retry loop of `get_random_frame` returns a
timestamp in `[0, duration)` (given draws in `[0, 1)` and a positive
duration) together with the frame `get_frame_time` yields there. -/
theorem get_random_frame_loop_sound {S : Type} (v : CatVideo) (step : S → S)
    (val : S → ℚ) (timeOut : ℚ → Bytes)
    (hval : ∀ g, 0 ≤ val g ∧ val g < 1) (hdur : 0 < v.duration) :
    ∀ (fuel : Nat) (g : S) (ft : ℚ) (fr : NDArray) (gout : S),
      CatVideo.get_random_frame_loop v step val timeOut fuel g = some ((ft, fr), gout) →
      0 ≤ ft ∧ ft < v.duration ∧ v.get_frame_time (timeOut ft) = .ok fr := by
  intro fuel
  induction fuel with
  | zero =>
    intro g ft fr gout h
    exact absurd h (by simp [CatVideo.get_random_frame_loop])
  | succ f ih =>
    intro g ft fr gout h
    simp only [CatVideo.get_random_frame_loop] at h
    cases hft : v.get_frame_time (timeOut (val g * v.duration)) with
    | ok frame =>
      rw [hft] at h
      cases h
      refine ⟨mul_nonneg (hval g).1 (le_of_lt hdur), ?_, hft⟩
      calc val g * v.duration < 1 * v.duration :=
             mul_lt_mul_of_pos_right (hval g).2 hdur
        _ = v.duration := one_mul _
    | error e =>
      rw [hft] at h
      exact ih (step g) ft fr gout h

end VideoUtils

namespace VideoUtils

/-! ## Claims -/

/-- C1: for a valid index `i` into the presentation-timestamp list,
`get_frame_num i` returns exactly what `get_frame_time` returns at the
timestamp stored at index `i`, the list being first computed by
`set_pts_list` when it is still `None` (the state after that fill is
`v1`). -/
theorem get_frame_num_fetches_by_stored_timestamp
    (v : CatVideo) (errPts : List Char) (timeOut : ℚ → Bytes) (i : Nat)
    (v1 : CatVideo)
    (hfill : (if v.pts_list.isNone then v.set_pts_list errPts else .ok v) = .ok v1)
    (l : List ℚ) (hl : v1.pts_list = some l) (hi : i < l.length) :
    v.get_frame_num errPts timeOut i
      = (v1.get_frame_time (timeOut (l.get ⟨i, hi⟩))).map (fun a => (v1, a)) := by
  unfold CatVideo.get_frame_num
  rw [hfill]
  simp only [hl, List.get?_eq_get hi]
  cases h : v1.get_frame_time (timeOut (l.get ⟨i, hi⟩)) <;> simp [Except.map, h]

/-- C1 witness: on `vFilled` (whose list is `[2]`) fetching frame 0 equals
fetching by timestamp 2. -/
theorem get_frame_num_fetches_by_stored_timestamp_witness :
    CatVideo.get_frame_num vFilled [] oneFrame 0
      = (CatVideo.get_frame_time vFilled (oneFrame 2)).map (fun a => (vFilled, a)) :=
  get_frame_num_fetches_by_stored_timestamp vFilled [] oneFrame 0 vFilled rfl [2] rfl
    (by decide)

/-- C3: running `iter_all_frames` to exhaustion on an object whose
`pts_list` is `None`, with a stderr holding a `pts_time:` entry, raises
`NameError` — line 119 of the source reads the undefined name
`match_list` — instead of storing the parsed list. -/
theorem iter_all_frames_raises_name_error :
    CatVideo.iter_all_frames vEmptyPts [] errOnePts
      = .error "NameError: name match_list is not defined" := rfl

/-- C5: with effective dimensions `h`, `w` (supplied, or parsed from the
first `Video: ..., WxH,` stderr match), `get_frame` returns the
`(h, w, 3)` array over exactly the decoder's bytes when their count is
`h*w*3`, and the reshape raises `ValueError` otherwise. -/
theorem get_frame_reshape_exact (out : Bytes) (err : List Char) (h w : Nat) :
    (out.length = h * w * 3 →
       get_frame out err (some h) (some w) = .ok { shape := [h, w, 3], data := out }) ∧
    (out.length ≠ h * w * 3 →
       get_frame out err (some h) (some w) = .error "ValueError: cannot reshape array") ∧
    (∀ g1 g2 pw ph, searchVideoSize err = some (g1, g2) →
       parseIntD g1 = some pw → parseIntD g2 = some ph →
       ((out.length = ph * pw * 3 →
           get_frame out err none none = .ok { shape := [ph, pw, 3], data := out }) ∧
        (out.length ≠ ph * pw * 3 →
           get_frame out err none none = .error "ValueError: cannot reshape array"))) := by
  refine ⟨fun hlen => ?_, fun hlen => ?_,
    fun g1 g2 pw ph hs h1 h2 => ⟨fun hlen => ?_, fun hlen => ?_⟩⟩
  · rw [Nat.mul_assoc] at hlen
    simp [get_frame, reshape, frombuffer, mul_assoc, hlen]
  · rw [Nat.mul_assoc] at hlen
    simp [get_frame, reshape, frombuffer, mul_assoc, hlen]
  · rw [Nat.mul_assoc] at hlen
    simp [get_frame, hs, h1, h2, reshape, frombuffer, mul_assoc, hlen]
  · rw [Nat.mul_assoc] at hlen
    simp [get_frame, hs, h1, h2, reshape, frombuffer, mul_assoc, hlen]

/-- C5 witness: a 3-byte output reshapes to a 1x1 frame; a 4-byte output
raises `ValueError`. -/
theorem get_frame_reshape_exact_witness :
    get_frame [9, 9, 9] [] (some 1) (some 1) = .ok { shape := [1, 1, 3], data := [9, 9, 9] } ∧
    get_frame [9, 9, 9, 9] [] (some 1) (some 1) = .error "ValueError: cannot reshape array" :=
  ⟨(get_frame_reshape_exact [9, 9, 9] [] 1 1).1 (by decide),
   (get_frame_reshape_exact [9, 9, 9, 9] [] 1 1).2.1 (by decide)⟩

/-- C6: when both dimensions are supplied the stderr is never consulted
and the supplied values are used unchanged; when either is `None` the
supplied values are discarded and both dimensions come from the first
`Video: ..., WxH,` match (width group first), parsed as integers. -/
theorem get_frame_dimension_source (out : Bytes) :
    (∀ err err' h w, get_frame out err (some h) (some w) = get_frame out err' (some h) (some w)) ∧
    (∀ err h w, get_frame out err (some h) (some w) = reshape (frombuffer out) [h, w, 3]) ∧
    (∀ err height width, height.isNone ∨ width.isNone →
       get_frame out err height width = get_frame out err none none) ∧
    (∀ err g1 g2 pw ph, searchVideoSize err = some (g1, g2) →
       parseIntD g1 = some pw → parseIntD g2 = some ph →
       get_frame out err none none = reshape (frombuffer out) [ph, pw, 3]) := by
  refine ⟨fun err err' h w => ?_, fun err h w => ?_, fun err height width hnone => ?_,
    fun err g1 g2 pw ph hs h1 h2 => ?_⟩
  · simp [get_frame]
  · simp [get_frame]
  · rcases height with _ | h <;> rcases width with _ | w <;>
      simp_all [get_frame]
  · simp [get_frame, hs, h1, h2]

/-- C6 witness: with both dimensions supplied, two different stderr texts
give the same result; with `height` missing, the supplied width 7 is
discarded in favour of the parsed 1x1 pair. -/
theorem get_frame_dimension_source_witness :
    get_frame [1, 2, 3] [] (some 1) (some 1)
      = get_frame [1, 2, 3] "Video: a, 9x9,".toList (some 1) (some 1) ∧
    get_frame [1, 2, 3] "Video: a, 1x1,".toList none (some 7)
      = get_frame [1, 2, 3] "Video: a, 1x1,".toList none none :=
  ⟨(get_frame_dimension_source [1, 2, 3]).1 [] "Video: a, 9x9,".toList 1 1,
   (get_frame_dimension_source [1, 2, 3]).2.2.1 "Video: a, 1x1,".toList none (some 7)
     (Or.inl rfl)⟩

/-- C8: `__init__` raises `ValueError` exactly when the probe reports no
stream of codec type `video`; otherwise width and height come from that
stream, swapped exactly when it carries a rotate tag of `"90"` or
`"270"`, duration comes from the stream, and `pts_list` starts as
`None`. -/
theorem init_spec (file : String) (streams : List MediaStream) (vsync : Int)
    (lg : String) :
    (CatVideo.init file streams vsync lg = .error "ValueError: No video stream found"
       ↔ findVideoStream streams = none) ∧
    (∀ vs, findVideoStream streams = some vs →
       CatVideo.init file streams vsync lg
         = .ok { file := file,
                 width := if vs.rotate? = some "90" ∨ vs.rotate? = some "270"
                          then vs.height else vs.width,
                 height := if vs.rotate? = some "90" ∨ vs.rotate? = some "270"
                           then vs.width else vs.height,
                 duration := vs.duration, vsync := vsync, loglevel := lg,
                 pts_list := none }) := by
  constructor
  · cases h : findVideoStream streams <;> simp [CatVideo.init, h]
  · intro vs hvs
    simp only [CatVideo.init, hvs]
    cases hr : vs.rotate? with
    | none => simp
    | some r =>
      by_cases h90 : r = "90" ∨ r = "270" <;> simp [h90]

/-- C8 witness: the rotated 2x1 stream of `probeRot` yields a swapped 1x2
object with duration 7 and an empty timestamp list. -/
theorem init_spec_witness :
    CatVideo.init "cat.mp4" probeRot 0 "error"
      = .ok { file := "cat.mp4", width := 1, height := 2, duration := 7,
              vsync := 0, loglevel := "error", pts_list := none } :=
  (init_spec "cat.mp4" probeRot 0 "error").2
    { codec_type := "video", width := 2, height := 1, duration := 7,
      tags := some [("rotate", "90")] } rfl

/-- C9: assuming the decoder returns either no bytes or exactly one
`height*width*3`-byte frame, `get_frame_time` raises `ValueError` exactly
when the output is empty, and otherwise returns the `(height, width, 3)`
array over those bytes. (The method assigns no attribute, so the object
is unchanged: in this embedding it is a pure function of `v`.) -/
theorem get_frame_time_error_iff_empty (v : CatVideo) (out : Bytes)
    (hdec : out = [] ∨ out.length = v.height * v.width * 3) :
    ((∃ e, v.get_frame_time out = .error e) ↔ out = []) ∧
    (out ≠ [] →
       v.get_frame_time out = .ok { shape := [v.height, v.width, 3], data := out }) := by
  rcases hdec with rfl | hlen
  · simp [CatVideo.get_frame_time, frombuffer]
  · constructor
    · constructor
      · rintro ⟨e, he⟩
        by_contra hne
        have hl : out.length ≠ 0 := fun h => hne (List.length_eq_zero.mp h)
        simp only [CatVideo.get_frame_time, frombuffer, if_neg hl, reshape] at he
        rw [if_pos] at he
        · exact Except.noConfusion he
        · simp [List.prod, hlen, Nat.mul_assoc]
      · rintro rfl
        exact ⟨_, rfl⟩
    · intro hne
      have hl : out.length ≠ 0 := fun h => hne (List.length_eq_zero.mp h)
      simp only [CatVideo.get_frame_time, frombuffer, if_neg hl, reshape]
      rw [if_pos]
      simp [List.prod, hlen, Nat.mul_assoc]

/-- C9 witness: on a 1x1 object, a 3-byte output yields the frame and the
empty output raises. -/
theorem get_frame_time_error_iff_empty_witness :
    CatVideo.get_frame_time vFilled [7, 8, 9]
      = .ok { shape := [1, 1, 3], data := [7, 8, 9] } ∧
    ((∃ e, CatVideo.get_frame_time vFilled [] = .error e) ↔ ([] : Bytes) = []) :=
  ⟨(get_frame_time_error_iff_empty vFilled [7, 8, 9] (Or.inr (by decide))).2 (by decide),
   (get_frame_time_error_iff_empty vFilled [] (Or.inl rfl)).1⟩

end VideoUtils

namespace VideoUtils

/-- C2 counterexample: `get_frame_num` on an object whose `pts_list` is
`None` leaves the object with `pts_list` set — the fields after the call
do not all equal their `__init__` values. -/
theorem get_frame_num_mutates_pts_list :
    (CatVideo.get_frame_num vEmptyPts errOnePts oneFrame 0).map (fun p => p.1.pts_list)
      = .ok (some [((5 : Nat) : ℚ)]) ∧ vEmptyPts.pts_list = none :=
  ⟨rfl, rfl⟩

/-- C2 amended: the class memoizes exactly one decoder-derived result,
`pts_list`. `set_pts_list` (and `get_frame_num` through it) stores the
parsed timestamp list on the object and `get_frame_num` reuses a stored
list instead of re-running the timestamp pass; every other field keeps
its `__init__` value across every method call, and a generator run to
exhaustion never changes the object (the intended `pts_list` store in
`iter_all_frames` is unreachable, see C3). -/
theorem pts_list_is_the_only_cached_state :
    (∀ (v : CatVideo) (err : List Char) (v1 : CatVideo),
       v.set_pts_list err = .ok v1 →
       v1.file = v.file ∧ v1.width = v.width ∧ v1.height = v.height ∧
       v1.duration = v.duration ∧ v1.vsync = v.vsync ∧ v1.loglevel = v.loglevel) ∧
    (∀ (v : CatVideo) (err : List Char) (timeOut : ℚ → Bytes) (i : Nat)
       (v1 : CatVideo) (a : NDArray),
       v.get_frame_num err timeOut i = .ok (v1, a) →
       v1.file = v.file ∧ v1.width = v.width ∧ v1.height = v.height ∧
       v1.duration = v.duration ∧ v1.vsync = v.vsync ∧ v1.loglevel = v.loglevel) ∧
    (∀ (v : CatVideo) (err err' : List Char) (timeOut : ℚ → Bytes) (i : Nat),
       v.pts_list.isSome →
       v.get_frame_num err timeOut i = v.get_frame_num err' timeOut i) ∧
    (∀ (v : CatVideo) (stream : Bytes) (err : List Char) (fs : List NDArray)
       (v1 : CatVideo),
       v.iter_all_frames stream err = .ok (fs, v1) → v1 = v) := by
  refine ⟨set_pts_list_fields, ?_, ?_, ?_⟩
  · intro v err timeOut i v1 a h
    rcases get_frame_num_ok_state v err timeOut i v1 a h with rfl | hset
    · exact ⟨rfl, rfl, rfl, rfl, rfl, rfl⟩
    · exact set_pts_list_fields v err v1 hset
  · intro v err err' timeOut i hsome
    have hn : v.pts_list.isNone = false := by
      cases hp : v.pts_list <;> simp_all
    unfold CatVideo.get_frame_num
    rw [hn]
    simp
  · intro v stream err fs v1 h
    unfold CatVideo.iter_all_frames at h
    split at h
    · cases h
    · split at h
      · split at h
        · cases h
        · cases h
          rfl
      · cases h
        rfl

/-- C2 amended witness: filling `vEmptyPts` from `errOnePts` changes only
`pts_list`. -/
theorem pts_list_is_the_only_cached_state_witness :
    vFilled5.file = vEmptyPts.file ∧ vFilled5.width = vEmptyPts.width ∧
    vFilled5.height = vEmptyPts.height ∧ vFilled5.duration = vEmptyPts.duration ∧
    vFilled5.vsync = vEmptyPts.vsync ∧ vFilled5.loglevel = vEmptyPts.loglevel :=
  pts_list_is_the_only_cached_state.1 vEmptyPts errOnePts vFilled5 rfl

/-- C4: when the probe has a video stream, every `pts_time` text parses,
and the decoder emits one `pts_time` stderr entry per `height*width*3`
bytes of raw output, `get_all_frames_ffmpeg` returns the timestamp list
alongside a frame array whose leading dimension (the raw length divided
by `height*width*3`) equals the number of timestamps. -/
theorem get_all_frames_ffmpeg_timestamp_per_frame
    (streams : List MediaStream) (out : Bytes) (err : List Char)
    (vs : MediaStream) (hvs : findVideoStream streams = some vs)
    (ts : List ℚ) (hts : (ptsTextMatches err).mapM parseFloat? = some ts)
    (hn : vs.height * vs.width * 3 ≠ 0)
    (hlen : out.length = ts.length * (vs.height * vs.width * 3)) :
    get_all_frames_ffmpeg streams out err
      = .ok (ts, { shape := [ts.length, vs.height, vs.width, 3], data := out }) := by
  have hprod : List.prod [vs.height, vs.width, 3] = vs.height * vs.width * 3 := by
    simp [List.prod_cons, Nat.mul_assoc]
  have hpos : 0 < vs.height * vs.width * 3 := Nat.pos_of_ne_zero hn
  simp only [get_all_frames_ffmpeg, hvs, hts, reshapeInferFirst, frombuffer, hprod]
  rw [if_pos ⟨hn, hlen ▸ dvd_mul_left _ _⟩]
  rw [hlen, Nat.mul_div_cancel ts.length hpos]

/-- C4 witness: a 1x1 video whose showinfo stderr carries the integer
entry `pts_time:0 ` (the regex match text is `"0 "`, which `float`
parses to 0 after stripping the space) and one 3-byte frame gives a
one-element timestamp list and a `(1,1,1,3)` array. -/
theorem get_all_frames_ffmpeg_timestamp_per_frame_witness :
    get_all_frames_ffmpeg probeTiny [1, 2, 3] "n:0 pts_time:0 pos:48\n".toList
      = .ok ([((0 : Nat) : ℚ)], { shape := [1, 1, 1, 3], data := [1, 2, 3] }) :=
  get_all_frames_ffmpeg_timestamp_per_frame probeTiny [1, 2, 3]
    "n:0 pts_time:0 pos:48\n".toList vsTiny rfl [((0 : Nat) : ℚ)] rfl (by decide) rfl

/-- The read loop over a stream of exactly `k` chunks of `width*height*3`
bytes yields the reshaped chunks in order (given enough fuel). -/
theorem readFramesAux_chunks (ht wd : Nat) (hn : wd * ht * 3 ≠ 0) :
    ∀ (k : Nat) (b : Bytes) (fuel : Nat),
      b.length = k * (wd * ht * 3) → b.length ≤ fuel →
      readFramesAux ht wd fuel b
        = .ok ((List.range k).map fun i =>
            { shape := [ht, wd, 3],
              data := (b.drop (i * (wd * ht * 3))).take (wd * ht * 3) }) := by
  intro k
  induction k with
  | zero =>
    intro b fuel hb hf
    have hb0 : b = [] := List.length_eq_zero.mp (by simpa using hb)
    subst hb0
    cases fuel <;> simp [readFramesAux]
  | succ k ih =>
    intro b fuel hb hf
    have hpos : 0 < wd * ht * 3 := Nat.pos_of_ne_zero hn
    have hbpos : 0 < b.length := by
      rw [hb]
      exact Nat.mul_pos (Nat.succ_pos k) hpos
    obtain ⟨c, bs, rfl⟩ : ∃ c bs, b = c :: bs := by
      cases b with
      | nil => simp at hbpos
      | cons c bs => exact ⟨c, bs, rfl⟩
    obtain ⟨f, rfl⟩ : ∃ f, fuel = f + 1 := ⟨fuel - 1, by omega⟩
    have hge : wd * ht * 3 ≤ (c :: bs).length := by
      rw [hb, Nat.succ_mul]
      exact Nat.le_add_left _ _
    have htake : ((c :: bs).take (wd * ht * 3)).length = wd * ht * 3 := by
      rw [List.length_take]
      omega
    have hprod : List.prod [ht, wd, 3] = wd * ht * 3 := by
      simp [List.prod_cons]
      ring
    have hrec : readFramesAux ht wd f ((c :: bs).drop (wd * ht * 3))
        = .ok ((List.range k).map fun i =>
            { shape := [ht, wd, 3],
              data := (((c :: bs).drop (wd * ht * 3)).drop (i * (wd * ht * 3))).take
                (wd * ht * 3) }) := by
      apply ih
      · rw [List.length_drop, hb, Nat.succ_mul]
        omega
      · rw [List.length_drop]
        omega
    simp only [readFramesAux, if_neg hn, reshape, frombuffer, htake, hprod, if_pos rfl,
      hrec]
    rw [List.range_succ_eq_map]
    simp only [List.map_cons, List.map_map, Nat.zero_mul, List.drop_zero]
    refine congrArg Except.ok (congrArg₂ List.cons rfl ?_)
    apply List.map_congr_left
    intro i _
    simp only [Function.comp_apply, List.drop_drop]
    rw [Nat.succ_mul, Nat.add_comm]

/-- C7: run to exhaustion on a stream of `k` whole frames, the lazy
generator yields one `(height, width, 3)` frame per consecutive
`width*height*3`-byte chunk of the decoder's output, in stream order,
stopping when a read returns no bytes. -/
theorem iter_all_frames_ffmpeg_chunks
    (streams : List MediaStream) (stream : Bytes) (vs : MediaStream)
    (hvs : findVideoStream streams = some vs) (k : Nat)
    (hk : stream.length = k * (vs.width * vs.height * 3))
    (hn : vs.width * vs.height * 3 ≠ 0) :
    iter_all_frames_ffmpeg streams stream
      = .ok ((List.range k).map fun i =>
          { shape := [vs.height, vs.width, 3],
            data := (stream.drop (i * (vs.width * vs.height * 3))).take
              (vs.width * vs.height * 3) }) := by
  simp only [iter_all_frames_ffmpeg, hvs]
  exact readFramesAux_chunks vs.height vs.width hn k stream stream.length hk le_rfl

/-- C7 witness: a six-byte stream of a 1x1 video yields exactly its two
3-byte chunks as frames. -/
theorem iter_all_frames_ffmpeg_chunks_witness :
    iter_all_frames_ffmpeg probeTiny [1, 2, 3, 4, 5, 6]
      = .ok [{ shape := [1, 1, 3], data := [1, 2, 3] },
             { shape := [1, 1, 3], data := [4, 5, 6] }] := by
  rw [iter_all_frames_ffmpeg_chunks probeTiny [1, 2, 3, 4, 5, 6] vsTiny rfl 2 rfl
    (by decide)]
  rfl

/-- C10: with a seed supplied, `np.random.seed` makes the draw stream a
function of the seed alone, so the call's result does not depend on the
prior generator state; a successful call returns a timestamp that is
`draw * duration ∈ [0, duration)` (draws lying in `[0, 1)`, duration
positive) and exactly the frame `get_frame_time` produces there. -/
theorem get_random_frame_seeded_deterministic {S : Type} (v : CatVideo)
    (seedFn : Nat → S) (step : S → S) (val : S → ℚ) (timeOut : ℚ → Bytes)
    (s : Nat) (g0 g1 : S) (fuel : Nat)
    (hval : ∀ g, 0 ≤ val g ∧ val g < 1) (hdur : 0 < v.duration)
    (ft : ℚ) (fr : NDArray) (gout : S)
    (hrun : v.get_random_frame seedFn step val timeOut (some s) g0 fuel
      = some ((ft, fr), gout)) :
    v.get_random_frame seedFn step val timeOut (some s) g1 fuel
      = some ((ft, fr), gout) ∧
    0 ≤ ft ∧ ft < v.duration ∧ v.get_frame_time (timeOut ft) = .ok fr := by
  refine ⟨hrun, ?_⟩
  exact get_random_frame_loop_sound v step val timeOut hval hdur fuel (seedFn s)
    ft fr gout hrun

end VideoUtils

namespace VideoUtils

section
attribute [local semireducible] Rat.mul

/-- C10 witness: seed 3 with the prior state 5 gives the same result as
with the prior state 0: timestamp 0 in `[0, 1)` and the frame the decoder
yields there. -/
theorem get_random_frame_seeded_deterministic_witness :
    CatVideo.get_random_frame vEmptyPts id Nat.succ (fun _ => (0 : ℚ)) oneFrame
      (some 3) 5 1 = some (((0 : ℚ), { shape := [1, 1, 3], data := [10, 20, 30] }), 4) ∧
    (0 : ℚ) ≤ 0 ∧ (0 : ℚ) < vEmptyPts.duration ∧
    CatVideo.get_frame_time vEmptyPts (oneFrame 0)
      = .ok { shape := [1, 1, 3], data := [10, 20, 30] } :=
  get_random_frame_seeded_deterministic vEmptyPts id Nat.succ (fun _ => (0 : ℚ))
    oneFrame 3 0 5 1 (fun g => ⟨le_refl 0, show (0 : ℚ) < 1 by decide⟩) (show (0 : ℚ) < 1 by decide) 0
    { shape := [1, 1, 3], data := [10, 20, 30] } 4 rfl

end

end VideoUtils
